import Mathlib

/-!
Verification of the MI_DEG_streamlit repository.

The repository consists of two Streamlit scripts, `deg_mi_visualizer.py`
(base column-naming convention, with a `main` orchestrator) and `aux.py`
(condition-suffixed `_N6` column convention, plot helpers only).  We embed
the data model (a pandas DataFrame with a gene index and named float
columns, where a missing value is NaN), the filter applied in `main`
(lines 287-290), the schema validator (lines 206-213), the plot builders
and the summary statistics, with pandas/NumPy semantics made explicit:

* a cell is `Option ℚ` and `none` models NaN;
* every comparison against NaN is `False` (pandas semantics);
* indexing a missing column raises `KeyError` (modelled with `Except`);
* NumPy scalar division by zero yields NaN, not an exception;
* the truth value of a pandas Series raises `ValueError` (this is what
  the builtin `min` applied to two Series in `aux.py` line 165 runs into).
-/

/-- A pandas cell: `none` models NaN / a missing value. -/
abbrev Cell := Option ℚ

/-- Pandas semantics of `cell >= q`: NaN compares `False`. -/
def cellGE (x : Cell) (q : ℚ) : Bool :=
  match x with
  | some v => decide (q ≤ v)
  | none => false

/-- Pandas semantics of `cell <= q`: NaN compares `False`. -/
def cellLE (x : Cell) (q : ℚ) : Bool :=
  match x with
  | some v => decide (v ≤ q)
  | none => false

/-- Pandas semantics of `cell == 1`: NaN compares `False`. -/
def cellEq1 (x : Cell) : Bool :=
  match x with
  | some v => decide (v = 1)
  | none => false

/-- Pandas semantics of the elementwise `a < b` on two cells. -/
def cellLT (a b : Cell) : Bool :=
  match a, b with
  | some u, some v => decide (u < v)
  | _, _ => false

/-- One row of the loaded table: the gene symbol (the index entry) and the
named cells of the row. -/
structure RowE where
  gene : String
  cells : List (String × Cell)
deriving DecidableEq, Repr

/-- Value of a named cell of a row; a name that is not present behaves as
NaN (this is only exercised under a `hasCol` guard). -/
def RowE.get (r : RowE) (c : String) : Cell :=
  match r.cells.lookup c with
  | some v => v
  | none => none

/-- The loaded table: the column names and the gene-indexed rows. -/
structure DataFrame where
  columns : List String
  rows : List RowE
deriving DecidableEq, Repr

/-- `c in df.columns`. -/
def DataFrame.hasCol (df : DataFrame) (c : String) : Bool :=
  df.columns.contains c

/-- `df[c]`: the column as a series of cells; raises `KeyError` when the
column is absent. -/
def DataFrame.getCol (df : DataFrame) (c : String) : Except String (List Cell) :=
  if df.hasCol c then .ok (df.rows.map (fun r => r.get c))
  else .error ("KeyError: " ++ c)

/-- The gene index of the table (`df.index`). -/
def DataFrame.index (df : DataFrame) : List String :=
  df.rows.map (fun r => r.gene)

/-- `df[name] = series`: appends/overwrites a column, pairing the series
with the rows positionally (in-place mutation of the frame). -/
def DataFrame.setCol (df : DataFrame) (c : String) (s : List Cell) : DataFrame :=
  { columns := if df.hasCol c then df.columns else df.columns ++ [c]
    rows := (df.rows.zip s).map (fun p => { p.1 with cells := (p.1.cells.filter (fun kv => kv.1 ≠ c)) ++ [(c, p.2)] }) }

/-- Checks that each listed column can be indexed (first absent one raises
`KeyError`), as `px.scatter` does for its x/y/color/hover fields. -/
def DataFrame.checkCols (df : DataFrame) (cs : List String) : Except String Unit :=
  match cs.find? (fun c => !df.hasCol c) with
  | some c => .error ("KeyError: " ++ c)
  | none => .ok ()

/-! ## Filter Engine (`deg_mi_visualizer.py`, `main`, lines 287-290)

```python
filtered_df = df[
    (df['MI_with_condition'] >= mi_min) &
    (df['p_val_adj'] <= pval_max)
]
```
Both boolean masks are computed (each raising `KeyError` if its column is
absent) and a row is kept iff both comparisons hold; a NaN in either
column compares `False`. -/

/-- The per-row boolean mask of the filter in `main`. -/
def rowPasses (mi_min pval_max : ℚ) (r : RowE) : Bool :=
  cellGE (r.get "MI_with_condition") mi_min && cellLE (r.get "p_val_adj") pval_max

/-- The filter of `main` lines 287-290. -/
def applyFilters (df : DataFrame) (mi_min pval_max : ℚ) : Except String DataFrame := do
  let _ ← df.getCol "MI_with_condition"
  let _ ← df.getCol "p_val_adj"
  .ok { df with rows := df.rows.filter (rowPasses mi_min pval_max) }

/-! ## Schema Validator (`main`, lines 206-213) -/

/-- The required-column list of `main` line 207. -/
def required_columns : List String :=
  ["MI_with_condition", "avg_log2FC", "is_mitocarta", "p_val_adj_log10", "Il10", "pct_ratio"]

/-- `missing_columns = [col for col in required_columns if col not in df.columns]`. -/
def missingColumns (df : DataFrame) : List String :=
  required_columns.filter (fun c => !df.hasCol c)

/-! ## Chart specifications and the annotation overlay -/

/-- One text-label overlay anchored at a data point
(`fig.add_annotation(x=..., y=..., text=gene, ...)`). -/
structure Anchor where
  x : Cell
  y : Cell
  text : String
deriving DecidableEq, Repr

/-- Color encoding of a point: a discrete category (which is NaN when a
`.map` left the value unmapped) or a continuous color value. -/
inductive ColorEnc where
  | discrete (cat : Option String)
  | continuous (v : Cell)
deriving DecidableEq, Repr

/-- One point of a chart specification. -/
structure PlotPoint where
  x : Cell
  y : Cell
  color : ColorEnc
deriving DecidableEq, Repr

/-- A declarative chart specification as produced by the plot builders. -/
structure PlotSpec where
  xcol : String
  ycol : String
  points : List PlotPoint
  anchors : List Anchor
  title : String
deriving DecidableEq, Repr

/-- The gene-label loop shared by `create_mitocarta_scatter`
(`deg_mi_visualizer.py` lines 61-74) and `scatter_highlight`
(`aux.py` lines 67-80):

```python
for gene in genes_to_annotate:
    if gene in df.index:
        row = df.loc[gene]
        fig.add_annotation(x=row[x], y=row[y], text=gene, ...)
```

Under the unique-index invariant `df.loc[gene]` is the single matching
row, modelled by `find?`; a requested gene absent from the index is
skipped. -/
def labelAnchors (df : DataFrame) (genes : List String) (x y : String) : List Anchor :=
  genes.foldr
    (fun g acc =>
      match df.rows.find? (fun r => r.gene == g) with
      | some r => { x := r.get x, y := r.get y, text := g } :: acc
      | none => acc)
    []

/-- `px.scatter` with a continuous color column: validates that the x, y,
color and hover columns can all be indexed, then emits one point per row. -/
def pxContinuous (df : DataFrame) (x y c : String) (hover : List String) (title : String) :
    Except String PlotSpec := do
  let _ ← df.checkCols ([x, y, c] ++ hover)
  .ok { xcol := x, ycol := y
        points := df.rows.map (fun r => { x := r.get x, y := r.get y, color := .continuous (r.get c) })
        anchors := []
        title := title }

namespace Deg

/-- `df['is_mitocarta'].map({1: 'MitoCarta', 0: 'Other'})` applied to one
cell: unmapped values (NaN included) become NaN. -/
def mapMito (x : Cell) : Option String :=
  match x with
  | some v => if v = 1 then some "MitoCarta" else if v = 0 then some "Other" else none
  | none => none

/-- Hover fields of the two MI-vs-fold-change plots of `deg_mi_visualizer.py`. -/
def hoverA : List String :=
  ["p_val_adj", "p_val", "is_mitocarta", "Il10", "pct_ratio", "pct.1", "pct.2"]

/-- Hover fields of the three volcano plots of `deg_mi_visualizer.py`. -/
def hoverB : List String :=
  ["p_val_adj", "p_val", "Il10", "pct_ratio", "pct.1", "pct.2"]

/-- `create_mitocarta_scatter` (`deg_mi_visualizer.py` lines 32-76).  The
`genes_to_annotate=None` default expands to a fixed gene list at line 36;
callers in `main` always pass an explicit list, which is what we model.
The color argument `df['is_mitocarta'].map(...)` is evaluated before
`px.scatter` runs, so an absent `is_mitocarta` column raises first. -/
def create_mitocarta_scatter (df : DataFrame) (title_suffix : String)
    (genes_to_annotate : List String) : Except String PlotSpec := do
  let _ ← df.getCol "is_mitocarta"
  let _ ← df.checkCols (["MI_with_condition", "avg_log2FC"] ++ hoverA)
  .ok { xcol := "MI_with_condition", ycol := "avg_log2FC"
        points := df.rows.map (fun r =>
          { x := r.get "MI_with_condition", y := r.get "avg_log2FC"
            color := .discrete (mapMito (r.get "is_mitocarta")) })
        anchors := labelAnchors df genes_to_annotate "MI_with_condition" "avg_log2FC"
        title := "Scatter plot of MI vs avg_log2FC (MitoCarta genes in red) " ++ title_suffix }

/-- `create_pct_ratio_scatter` (`deg_mi_visualizer.py` lines 78-102). -/
def create_pct_ratio_scatter (df : DataFrame) (title_suffix : String) : Except String PlotSpec :=
  pxContinuous df "MI_with_condition" "avg_log2FC" "pct_ratio" hoverA
    ("Scatter plot of MI vs avg_log2FC (colored by pct_ratio) " ++ title_suffix)

/-- `create_volcano_mi_scatter` (`deg_mi_visualizer.py` lines 104-128). -/
def create_volcano_mi_scatter (df : DataFrame) (title_suffix : String) : Except String PlotSpec :=
  pxContinuous df "avg_log2FC" "p_val_adj_log10" "MI_with_condition" hoverB
    ("Volcano plot colored by MI " ++ title_suffix)

/-- `create_volcano_il10_scatter` (`deg_mi_visualizer.py` lines 130-154). -/
def create_volcano_il10_scatter (df : DataFrame) (title_suffix : String) : Except String PlotSpec :=
  pxContinuous df "avg_log2FC" "p_val_adj_log10" "Il10" hoverB
    ("Volcano plot colored by IL10 " ++ title_suffix)

/-- `create_volcano_pct_ratio_scatter` (`deg_mi_visualizer.py` lines
156-180): the fifth tab of `main` colors by `pct_ratio` directly. -/
def create_volcano_pct_scatter (df : DataFrame) (title_suffix : String) : Except String PlotSpec :=
  pxContinuous df "avg_log2FC" "p_val_adj_log10" "pct_ratio" hoverB
    ("Volcano plot colored by pct_ratio " ++ title_suffix)

end Deg

/-! ## Summary statistics (`main`, lines 331-345), with pandas/NumPy
aggregation semantics: `sum` skips NaN (empty sum is 0), `mean`/`median`
of an all-NaN or empty series are NaN, and NumPy scalar division by zero
produces NaN rather than raising. -/

/-- `Series.sum()`: NaN entries are skipped, the empty sum is 0. -/
def seriesSum (s : List Cell) : ℚ :=
  (s.filterMap id).sum

/-- `Series.mean()`: NaN entries are skipped; NaN when nothing remains. -/
def seriesMean (s : List Cell) : Cell :=
  let v := s.filterMap id
  if v.length = 0 then none else some (v.sum / v.length)

/-- `Series.median()`: NaN entries are skipped, the remaining values are
sorted and the two middle values averaged; NaN when nothing remains. -/
def seriesMedian (s : List Cell) : Cell :=
  let v := List.insertionSort (· ≤ ·) (s.filterMap id)
  if v.length = 0 then none
  else some ((v.getD ((v.length - 1) / 2) 0 + v.getD (v.length / 2) 0) / 2)

/-- NumPy scalar true division: division by zero warns and yields NaN/inf,
modelled as NaN; it does not raise. -/
def npDiv (a b : ℚ) : Cell :=
  if b = 0 then none else some (a / b)

/-- The metrics of the summary-statistics section of `main`. -/
structure Summary where
  mitocarta_count : ℚ
  mitocarta_pct : Cell
  mean_mi : Cell
  mean_fc : Cell
  median_pval : Cell
deriving DecidableEq, Repr

/-- Summary statistics of `main` lines 335-345 applied to the filtered
table. -/
def summaryStats (df : DataFrame) : Except String Summary := do
  let mito ← df.getCol "is_mitocarta"
  let mi ← df.getCol "MI_with_condition"
  let fc ← df.getCol "avg_log2FC"
  let p ← df.getCol "p_val_adj"
  let cnt := seriesSum mito
  .ok { mitocarta_count := cnt
        mitocarta_pct := (npDiv cnt df.rows.length).map (fun v => v * 100)
        mean_mi := seriesMean mi
        mean_fc := seriesMean fc
        median_pval := seriesMedian p }

/-! ## The `main` orchestration (`deg_mi_visualizer.py` lines 182-349) -/

/-- Everything `main` renders after a successful pass. -/
structure RenderOutput where
  n_filtered : Nat
  fig1 : PlotSpec
  fig2 : PlotSpec
  fig3 : PlotSpec
  fig4 : PlotSpec
  fig5 : PlotSpec
  summary : Summary
deriving DecidableEq, Repr

/-- Result of one pass of `main` over a loaded table: the schema check
fails and halts, an uncaught Python exception propagates, or the page is
rendered. -/
inductive Outcome where
  | schemaError (missing : List String)
  | pyError (msg : String)
  | rendered (out : RenderOutput)
deriving DecidableEq, Repr

/-- One pass of `main` (lines 206-345) over a loaded table and the
user-selected filter/annotation inputs: validate the schema (halting on
missing required columns), filter, build the five tabs, compute the
summary statistics. -/
def runMain (df : DataFrame) (mi_min pval_max : ℚ) (genes_to_annotate : List String) : Outcome :=
  let missing := missingColumns df
  if missing.isEmpty then
    match (do
      let fdf ← applyFilters df mi_min pval_max
      let suffix := "(n=" ++ toString fdf.rows.length ++ ")"
      let f1 ← Deg.create_mitocarta_scatter fdf suffix genes_to_annotate
      let f2 ← Deg.create_pct_ratio_scatter fdf suffix
      let f3 ← Deg.create_volcano_mi_scatter fdf suffix
      let f4 ← Deg.create_volcano_il10_scatter fdf suffix
      let f5 ← Deg.create_volcano_pct_scatter fdf suffix
      let s ← summaryStats fdf
      Except.ok { n_filtered := fdf.rows.length, fig1 := f1, fig2 := f2, fig3 := f3
                  fig4 := f4, fig5 := f5, summary := s } : Except String RenderOutput) with
    | .ok r => .rendered r
    | .error e => .pyError e
  else .schemaError missing

/-! ## `aux.py`: the condition-suffixed (`_N6`) variant -/

namespace Aux

/-- Hover fields used by every plot of `aux.py`. -/
def auxHover : List String :=
  ["p_val_adj_N6", "Il10", "Il6", "pct_ratio_N6", "pct.1_N6", "pct.2_N6"]

/-- The per-row value of the `category` column written onto the copy
`df_plot` in `scatter_highlight` (`aux.py` lines 36-40): every row starts
as `'Other'`, and when the binary column exists, rows whose value equals 1
are relabelled with the column name. -/
def categoryOf (df : DataFrame) (bc : String) (r : RowE) : String :=
  if df.hasCol bc && cellEq1 (r.get bc) then bc else "Other"

/-- `scatter_highlight` (`aux.py` lines 26-82).  The source copies the
frame (`df_plot = df.copy()`), writes the `category` column on the copy,
and builds the chart from the copy; the caller's frame is returned
unchanged as the second component.  `binary_column=None` defaults to
`'is_mitocarta'`; `genes_to_annotate` is modelled as the explicit list
callers pass. -/
def scatter_highlight (df : DataFrame) (title_suffix : String)
    (genes_to_annotate : List String) (binary_column : Option String)
    (y : String := "avg_log2FC_N6") (x : String := "MI_with_condition") :
    (Except String PlotSpec) × DataFrame :=
  let bc := binary_column.getD "is_mitocarta"
  let spec : Except String PlotSpec := do
    let _ ← df.checkCols ([x, y] ++ auxHover)
    .ok { xcol := x, ycol := y
          points := df.rows.map (fun r =>
            { x := r.get x, y := r.get y, color := .discrete (some (categoryOf df bc r)) })
          anchors := labelAnchors df genes_to_annotate x y
          title := "Scatter plot of " ++ x ++ " vs " ++ y ++ " (" ++ bc ++ " highlighted) " ++ title_suffix }
  (spec, df)

/-- `bool(series)`: pandas `NDFrame.__bool__` raises unconditionally
("The truth value of a Series is ambiguous"), whatever the length. -/
def seriesTruth (_s : List Bool) : Except String Bool :=
  .error "ValueError: The truth value of a Series is ambiguous."

/-- The Python builtin `min(a, b)` applied to two Series: it evaluates
`b < a` (an elementwise boolean Series) and takes its truth value, which
raises. -/
def pyMin2 (a b : List Cell) : Except String (List Cell) := do
  let lt := List.zipWith cellLT b a
  let t ← seriesTruth lt
  .ok (if t then b else a)

/-- `create_volcano_pct_ratio_scatter` (`aux.py` lines 161-190):

```python
df["min_pct"] = min(df["pct.1"], df["pct.2"])
fig = px.scatter(df, y='p_val_adj_log10_N6', x='avg_log2FC_N6', color='min_pct', ...)
```

The assignment targets the caller's frame itself (no copy), so the state
is threaded: the second component is what the caller's frame holds after
the call.  The right-hand side is evaluated first, so when it raises the
assignment never happens. -/
def create_volcano_pct_ratio_scatter (df : DataFrame) (title_suffix : String) :
    (Except String PlotSpec) × DataFrame :=
  match (do
    let c1 ← df.getCol "pct.1"
    let c2 ← df.getCol "pct.2"
    pyMin2 c1 c2) with
  | .error e => (.error e, df)
  | .ok m =>
    let df' := df.setCol "min_pct" m
    (pxContinuous df' "avg_log2FC_N6" "p_val_adj_log10_N6" "min_pct" auxHover
      ("Volcano plot colored by min_pct " ++ title_suffix), df')

end Aux

/-! ## Regulation-direction filter (spec §4.3)

`main` in `src/deg_mi_visualizer.py` applies only the two threshold
filters; the regulation-direction predicate and re-sort belong to a
script variant of the repository that is not among the provided sources,
so it is modelled from the spec on top of the source-derived
`applyFilters`. -/

/-- The regulation-direction selector of spec §4.3. -/
inductive Regulation where
  | Both
  | UpOnly
  | DownOnly
deriving DecidableEq, Repr

/-- Pandas semantics of `cell > q`: NaN compares `False`. -/
def cellGT (x : Cell) (q : ℚ) : Bool :=
  match x with
  | some v => decide (q < v)
  | none => false

/-- Pandas semantics of `cell < q`: NaN compares `False`. -/
def cellLTv (x : Cell) (q : ℚ) : Bool :=
  match x with
  | some v => decide (v < q)
  | none => false

/-- Sort key: the row's `avg_log2FC` value (rows reaching a regulation
sort all have one, since they passed a strict sign test). -/
def fcKey (r : RowE) : ℚ :=
  (r.get "avg_log2FC").getD 0

/-- "Descending by `log2FC`" as a relation between rows. -/
def fcDesc (a b : RowE) : Prop :=
  fcKey b ≤ fcKey a

/-- "Ascending by `log2FC`" as a relation between rows. -/
def fcAsc (a b : RowE) : Prop :=
  fcKey a ≤ fcKey b

instance : DecidableRel fcDesc :=
  fun a b => (inferInstance : Decidable (fcKey b ≤ fcKey a))

instance : DecidableRel fcAsc :=
  fun a b => (inferInstance : Decidable (fcKey a ≤ fcKey b))

instance : IsTotal RowE fcDesc :=
  ⟨fun a b => (le_total (fcKey b) (fcKey a)).imp id id⟩

instance : IsTrans RowE fcDesc :=
  ⟨fun _ _ _ h1 h2 => le_trans h2 h1⟩

instance : IsTotal RowE fcAsc :=
  ⟨fun a b => (le_total (fcKey a) (fcKey b)).imp id id⟩

instance : IsTrans RowE fcAsc :=
  ⟨fun _ _ _ h1 h2 => le_trans h1 h2⟩

/-- Modelled from the spec: the Filter Engine of §4.3 with the
regulation-direction predicate, which is absent from the provided
sources (`main` applies only the two thresholds).  `Both` performs no
additional filtering or re-sort; `UpOnly` additionally requires
`log2FC > 0` and sorts descending by `log2FC`; `DownOnly` requires
`log2FC < 0` and sorts ascending. -/
def filterEngine (df : DataFrame) (mi_min pval_max : ℚ) (reg : Regulation) :
    Except String DataFrame := do
  let base ← applyFilters df mi_min pval_max
  match reg with
  | .Both => .ok base
  | .UpOnly =>
    .ok { base with
          rows := List.insertionSort fcDesc
            (base.rows.filter (fun r => cellGT (r.get "avg_log2FC") 0)) }
  | .DownOnly =>
    .ok { base with
          rows := List.insertionSort fcAsc
            (base.rows.filter (fun r => cellLTv (r.get "avg_log2FC") 0)) }

/-! ## Helper lemmas -/

instance {e a : Type} [DecidableEq e] [DecidableEq a] : DecidableEq (Except e a) := fun x y =>
  match x, y with
  | .ok u, .ok v => if h : u = v then .isTrue (by rw [h]) else .isFalse (by simp [h])
  | .error u, .error v => if h : u = v then .isTrue (by rw [h]) else .isFalse (by simp [h])
  | .ok _, .error _ => .isFalse (by simp)
  | .error _, .ok _ => .isFalse (by simp)

theorem cellGE_eq_true {x : Cell} {q : ℚ} :
    cellGE x q = true ↔ ∃ v, x = some v ∧ q ≤ v := by
  cases x <;> simp [cellGE]

theorem cellLE_eq_true {x : Cell} {q : ℚ} :
    cellLE x q = true ↔ ∃ v, x = some v ∧ v ≤ q := by
  cases x <;> simp [cellLE]

theorem cellGT_eq_true {x : Cell} {q : ℚ} :
    cellGT x q = true ↔ ∃ v, x = some v ∧ q < v := by
  cases x <;> simp [cellGT]

theorem cellLTv_eq_true {x : Cell} {q : ℚ} :
    cellLTv x q = true ↔ ∃ v, x = some v ∧ v < q := by
  cases x <;> simp [cellLTv]

theorem applyFilters_ok {df : DataFrame} {mi_min pval_max : ℚ} {out : DataFrame} :
    applyFilters df mi_min pval_max = .ok out ↔
      df.hasCol "MI_with_condition" = true ∧ df.hasCol "p_val_adj" = true ∧
        out = { df with rows := df.rows.filter (rowPasses mi_min pval_max) } := by
  unfold applyFilters DataFrame.getCol
  by_cases h1 : df.hasCol "MI_with_condition" <;>
    by_cases h2 : df.hasCol "p_val_adj" <;>
      simp [h1, h2, Bind.bind, Except.bind, eq_comm]

theorem checkCols_ok {df : DataFrame} {cs : List String}
    (h : ∀ c ∈ cs, df.hasCol c = true) : df.checkCols cs = .ok () := by
  unfold DataFrame.checkCols
  have : cs.find? (fun c => !df.hasCol c) = none :=
    List.find?_eq_none.mpr (by intro c hc; simp [h c hc])
  rw [this]

/-! ## C1: missing adjusted p-values under the filter -/

/-- A gene record with a missing adjusted p-value and a passing MI score. -/
def rowMissingP : RowE :=
  { gene := "G", cells := [("MI_with_condition", some 1), ("p_val_adj", none)] }

/-- A one-row table around `rowMissingP`. -/
def dfMissingP : DataFrame :=
  { columns := ["MI_with_condition", "p_val_adj"], rows := [rowMissingP] }

/-- C1 counterexample: the claim says a row with a missing adjusted
p-value is replaced by 1.0 before filtering and hence included when
`pval_max = 1.0` (its MI passing).  The code performs no substitution: a
NaN comparison is `False`, so the row `G`, whose MI score 1 passes
`mi_min = 0`, is excluded even at `pval_max = 1.0`. -/
theorem missing_pval_included_at_one_false :
    rowMissingP.get "p_val_adj" = none
    ∧ cellGE (rowMissingP.get "MI_with_condition") 0 = true
    ∧ applyFilters dfMissingP 0 1 = .ok { columns := dfMissingP.columns, rows := [] } :=
  ⟨rfl, rfl, rfl⟩

/-- C1 (amended): missing adjusted p-values are never substituted; the
NaN comparison fails, so a row with a missing adjusted p-value is
excluded by the filter for every `pval_max`, including `pval_max = 1.0`.
Every row of the filter's output carries a present adjusted p-value. -/
theorem missing_pval_always_excluded (df : DataFrame) (mi_min pval_max : ℚ)
    (out : DataFrame) (h : applyFilters df mi_min pval_max = .ok out)
    (r : RowE) (hr : r ∈ out.rows) :
    r.get "p_val_adj" ≠ none := by
  obtain ⟨-, -, rfl⟩ := applyFilters_ok.mp h
  have hpass := (List.mem_filter.mp hr).2
  rw [rowPasses, Bool.and_eq_true] at hpass
  obtain ⟨p, hp, -⟩ := cellLE_eq_true.mp hpass.2
  simp [hp]

/-- A gene record with a present adjusted p-value. -/
def rowPresentP : RowE :=
  { gene := "H", cells := [("MI_with_condition", some 2), ("p_val_adj", some 1)] }

/-- A one-row table around `rowPresentP`. -/
def dfPresentP : DataFrame :=
  { columns := ["MI_with_condition", "p_val_adj"], rows := [rowPresentP] }

/-- Witness instantiating `missing_pval_always_excluded` on a concrete
filter run. -/
theorem missing_pval_always_excluded_witness :
    rowPresentP.get "p_val_adj" ≠ none :=
  missing_pval_always_excluded dfPresentP 0 1
    { columns := dfPresentP.columns, rows := [rowPresentP] } rfl
    rowPresentP (by simp)

/-! ## C2: the threshold filter keeps exactly the passing rows -/

/-- C2: a row is in the Filter Engine's output iff it is an input row
whose MI score is at least `mi_min` and whose adjusted p-value is at most
`pval_max`, both bounds inclusive (soundness and completeness of the
boolean mask of `main` lines 287-290). -/
theorem filter_engine_mem_iff (df : DataFrame) (mi_min pval_max : ℚ) (out : DataFrame)
    (h : applyFilters df mi_min pval_max = .ok out) (r : RowE) :
    r ∈ out.rows ↔
      r ∈ df.rows
        ∧ (∃ v, r.get "MI_with_condition" = some v ∧ mi_min ≤ v)
        ∧ (∃ p, r.get "p_val_adj" = some p ∧ p ≤ pval_max) := by
  obtain ⟨-, -, rfl⟩ := applyFilters_ok.mp h
  simp only [List.mem_filter, rowPasses, Bool.and_eq_true, cellGE_eq_true, cellLE_eq_true,
    and_assoc]

/-- Witness instantiating `filter_engine_mem_iff` on a concrete filter
run: the passing row `H` of `dfPresentP` is kept at thresholds 0 and 1. -/
theorem filter_engine_mem_iff_witness :
    rowPresentP ∈ ({ columns := dfPresentP.columns, rows := [rowPresentP] } : DataFrame).rows ↔
      rowPresentP ∈ dfPresentP.rows
        ∧ (∃ v, rowPresentP.get "MI_with_condition" = some v ∧ (0 : ℚ) ≤ v)
        ∧ (∃ p, rowPresentP.get "p_val_adj" = some p ∧ p ≤ (1 : ℚ)) :=
  filter_engine_mem_iff dfPresentP 0 1
    { columns := dfPresentP.columns, rows := [rowPresentP] } rfl rowPresentP

/-! ## C8: the Schema Validator reports every absent required column -/

/-- C8: the Schema Validator's missing list contains exactly the absent
required columns (the full missing subset, surfaced verbatim), and when
any column is missing, one pass of `main` halts with that list before
filtering or plotting. -/
theorem schema_validator_spec (df : DataFrame) :
    (∀ c, c ∈ missingColumns df ↔ c ∈ required_columns ∧ df.hasCol c = false)
    ∧ (missingColumns df ≠ [] → ∀ (mi_min pval_max : ℚ) (genes : List String),
        runMain df mi_min pval_max genes = .schemaError (missingColumns df)) := by
  constructor
  · intro c
    simp [missingColumns, List.mem_filter]
  · intro hne mi_min pval_max genes
    unfold runMain
    rw [if_neg (by simpa [List.isEmpty_iff] using hne)]

/-- A table missing two of the required columns. -/
def dfMissCols : DataFrame :=
  { columns := ["MI_with_condition", "avg_log2FC", "p_val_adj_log10", "pct_ratio"],
    rows := [] }

/-- Witness instantiating `schema_validator_spec`: a table lacking
`is_mitocarta` and `Il10` halts with exactly that list. -/
theorem schema_validator_spec_witness :
    runMain dfMissCols 0 1 [] = .schemaError (missingColumns dfMissCols) :=
  (schema_validator_spec dfMissCols).2 (by decide) 0 1 []

/-! ## C9: passing validation does not protect the filter -/

/-- A table holding the six validated columns and nothing else: no
`p_val_adj` column, which the filter indexes. -/
def dfSixCols : DataFrame :=
  { columns := required_columns,
    rows := [{ gene := "G",
               cells := [("MI_with_condition", some 1), ("avg_log2FC", some 1),
                         ("is_mitocarta", some 1), ("p_val_adj_log10", some 1),
                         ("Il10", some 1), ("pct_ratio", some 1)] }] }

/-- C9: the validator's required list omits `p_val_adj`; on a table with
all six checked columns but no `p_val_adj`, validation passes and the
filtering step of the same pass raises `KeyError: p_val_adj`. -/
theorem validator_gap_p_val_adj :
    ("p_val_adj" ∉ required_columns)
    ∧ missingColumns dfSixCols = []
    ∧ runMain dfSixCols 0 1 [] = .pyError "KeyError: p_val_adj" :=
  ⟨by decide, rfl, rfl⟩

/-! ## C5: the derived `min_pct` column of the fifth `aux.py` plot -/

/-- A well-formed two-row table carrying the `pct.1` and `pct.2` columns
that `aux.py` line 165 reads. -/
def dfPct : DataFrame :=
  { columns := ["pct.1", "pct.2"],
    rows := [{ gene := "g1", cells := [("pct.1", some 5), ("pct.2", some 3)] },
             { gene := "g2", cells := [("pct.1", some 2), ("pct.2", some 4)] }] }

/-- C5 (code bug): `df["min_pct"] = min(df["pct.1"], df["pct.2"])` calls
the Python builtin `min` on two Series; `min` compares the two Series,
and taking the truth value of the resulting boolean Series raises
`ValueError`.  On the concrete table `dfPct` the fifth plot variant of
`aux.py` therefore raises instead of deriving the per-row minimum, and no
`min_pct` column is ever produced (the frame is returned unchanged). -/
theorem aux_min_pct_raises_valueerror :
    Aux.create_volcano_pct_ratio_scatter dfPct "" =
      (.error "ValueError: The truth value of a Series is ambiguous.", dfPct) :=
  rfl

/-! ## C10: plot builders leave the caller's table unchanged -/

/-- C10: after either cited plot-configuration call returns (normally or
by raising), the caller's frame is unchanged: `scatter_highlight` writes
its `category` column on a copy, and the in-place column assignment in
`Aux.create_volcano_pct_ratio_scatter` is never reached because the
right-hand side `min(...)` of the assignment raises first. -/
theorem plot_builders_preserve_frame (df : DataFrame) (ts : String)
    (genes : List String) (bc : Option String) (y x : String) :
    (Aux.scatter_highlight df ts genes bc y x).2 = df
    ∧ (Aux.create_volcano_pct_ratio_scatter df ts).2 = df := by
  refine ⟨rfl, ?_⟩
  unfold Aux.create_volcano_pct_ratio_scatter
  by_cases h1 : df.hasCol "pct.1" <;> by_cases h2 : df.hasCol "pct.2" <;>
    simp [DataFrame.getCol, h1, h2, Bind.bind, Except.bind, Aux.pyMin2, Aux.seriesTruth]

/-! ## C7: absent highlight column degrades to all-"Other" -/

/-- C7: when the requested binary highlight column is absent from the
table, `scatter_highlight` still produces a chart specification and every
row is colored with the discrete category `"Other"` (the guard
`if binary_column in df.columns` of `aux.py` line 38 never relabels). -/
theorem highlight_missing_column_fallback (df : DataFrame) (ts : String)
    (genes : List String) (bc : String) (y x : String)
    (hb : df.hasCol bc = false)
    (hcols : ∀ c ∈ [x, y] ++ Aux.auxHover, df.hasCol c = true) :
    ∃ s : PlotSpec, (Aux.scatter_highlight df ts genes (some bc) y x).1 = .ok s
      ∧ ∀ p ∈ s.points, p.color = .discrete (some "Other") := by
  refine ⟨{ xcol := x, ycol := y
            points := df.rows.map (fun r =>
              { x := r.get x, y := r.get y, color := .discrete (some (Aux.categoryOf df bc r)) })
            anchors := labelAnchors df genes x y
            title := "Scatter plot of " ++ x ++ " vs " ++ y ++ " (" ++ bc ++ " highlighted) " ++ ts },
        ?_, ?_⟩
  · simp only [Aux.scatter_highlight, Option.getD]
    rw [checkCols_ok hcols]
    rfl
  · intro p hp
    obtain ⟨r, -, rfl⟩ := List.mem_map.mp hp
    simp [Aux.categoryOf, hb]

/-- A table carrying the `aux.py` axis and hover columns but no
`Il6_flag` column. -/
def dfNoFlag : DataFrame :=
  { columns := ["MI_with_condition", "avg_log2FC_N6"] ++ Aux.auxHover,
    rows := [{ gene := "g",
               cells := [("MI_with_condition", some 1), ("avg_log2FC_N6", some 2)] }] }

/-- Witness instantiating `highlight_missing_column_fallback` on
`dfNoFlag` with the absent highlight column `Il6_flag`. -/
theorem highlight_missing_column_fallback_witness :
    ∃ s : PlotSpec,
      (Aux.scatter_highlight dfNoFlag "" [] (some "Il6_flag") "avg_log2FC_N6" "MI_with_condition").1 = .ok s
      ∧ ∀ p ∈ s.points, p.color = .discrete (some "Other") :=
  highlight_missing_column_fallback dfNoFlag "" [] "Il6_flag" "avg_log2FC_N6"
    "MI_with_condition" (by decide) (by decide)

/-! ## C6: annotation overlay helpers -/

theorem labelAnchors_cons (df : DataFrame) (g : String) (gs : List String) (x y : String) :
    labelAnchors df (g :: gs) x y =
      (match df.rows.find? (fun r => r.gene == g) with
        | some r => [{ x := r.get x, y := r.get y, text := g }]
        | none => []) ++ labelAnchors df gs x y := by
  unfold labelAnchors
  cases hf : df.rows.find? (fun r => r.gene == g) <;> simp [hf]

theorem gene_mem_index_iff {df : DataFrame} {g : String} :
    g ∈ df.index ↔ (df.rows.find? (fun r => r.gene == g)).isSome = true := by
  rw [List.find?_isSome]
  simp [DataFrame.index]

theorem find?_gene_eq_none {df : DataFrame} {g : String} (h : g ∉ df.index) :
    df.rows.find? (fun r => r.gene == g) = none := by
  rw [List.find?_eq_none]
  intro r hr hbeq
  exact h (List.mem_map.mpr ⟨r, hr, (beq_iff_eq.mp hbeq)⟩)

theorem labelAnchors_text_mem {df : DataFrame} {gs : List String} {x y : String}
    {a : Anchor} (ha : a ∈ labelAnchors df gs x y) : a.text ∈ gs := by
  induction gs with
  | nil => simp [labelAnchors] at ha
  | cons g gs ih =>
    rw [labelAnchors_cons] at ha
    rcases List.mem_append.mp ha with h | h
    · cases hf : df.rows.find? (fun r => r.gene == g) <;> rw [hf] at h
      · simp at h
      · rw [List.mem_singleton] at h
        subst h
        exact List.mem_cons_self g gs
    · exact List.mem_cons_of_mem g (ih h)

theorem labelAnchors_text_in_index {df : DataFrame} {gs : List String} {x y : String}
    {a : Anchor} (ha : a ∈ labelAnchors df gs x y) : a.text ∈ df.index := by
  induction gs with
  | nil => simp [labelAnchors] at ha
  | cons g gs ih =>
    rw [labelAnchors_cons] at ha
    rcases List.mem_append.mp ha with h | h
    · cases hf : df.rows.find? (fun r => r.gene == g) with
      | none => rw [hf] at h; simp at h
      | some r =>
        rw [hf] at h
        rw [List.mem_singleton] at h
        subst h
        exact gene_mem_index_iff.mpr (by rw [hf]; rfl)
    · exact ih h

theorem labelAnchors_countP_zero {df : DataFrame} {gs : List String} {x y : String}
    {g : String} (h : g ∉ gs) :
    (labelAnchors df gs x y).countP (fun a => a.text == g) = 0 := by
  rw [List.countP_eq_zero]
  intro a ha hbeq
  exact h (beq_iff_eq.mp hbeq ▸ labelAnchors_text_mem ha)

theorem labelAnchors_countP_absent {df : DataFrame} {gs : List String} {x y : String}
    {g : String} (h : g ∉ df.index) :
    (labelAnchors df gs x y).countP (fun a => a.text == g) = 0 := by
  rw [List.countP_eq_zero]
  intro a ha hbeq
  exact h (beq_iff_eq.mp hbeq ▸ labelAnchors_text_in_index ha)

theorem labelAnchors_countP_one {df : DataFrame} {x y : String} :
    ∀ {gs : List String} {g : String}, gs.Nodup → g ∈ gs → g ∈ df.index →
      (labelAnchors df gs x y).countP (fun a => a.text == g) = 1 := by
  intro gs
  induction gs with
  | nil => intro g _ hg _; simp at hg
  | cons g' gs ih =>
    intro g hnd hg hidx
    rw [labelAnchors_cons, List.countP_append]
    rcases List.mem_cons.mp hg with rfl | hgs
    · obtain ⟨r, hr⟩ := Option.isSome_iff_exists.mp (gene_mem_index_iff.mp hidx)
      rw [hr, labelAnchors_countP_zero (List.nodup_cons.mp hnd).1]
      simp
    · have hne : (g' == g) = false := by
        have hne' : g' ≠ g := fun e => (List.nodup_cons.mp hnd).1 (e ▸ hgs)
        simp [hne']
      cases hf : df.rows.find? (fun r => r.gene == g') <;>
        simp [hne, ih (List.nodup_cons.mp hnd).2 hgs hidx]

theorem labelAnchors_nil_of_absent {df : DataFrame} {x y : String} :
    ∀ {gs : List String}, (∀ g ∈ gs, g ∉ df.index) → labelAnchors df gs x y = [] := by
  intro gs
  induction gs with
  | nil => intro _; rfl
  | cons g gs ih =>
    intro h
    rw [labelAnchors_cons, find?_gene_eq_none (h g (List.mem_cons_self g gs))]
    simpa using ih (fun g' hg' => h g' (List.mem_cons_of_mem g hg'))

/-- C6: the Annotation Overlay, over a duplicate-free request list,
produces exactly one label anchor per requested gene present in the
table, produces no anchor for any gene absent from the table (silent
skip, the overlay being a total function), and produces zero anchors
when no requested gene is present. -/
theorem label_anchors_spec (df : DataFrame) (genes : List String) (x y : String)
    (hnd : genes.Nodup) :
    (∀ g ∈ genes, g ∈ df.index →
        (labelAnchors df genes x y).countP (fun a => a.text == g) = 1)
    ∧ (∀ g, g ∉ df.index →
        (labelAnchors df genes x y).countP (fun a => a.text == g) = 0)
    ∧ ((∀ g ∈ genes, g ∉ df.index) → labelAnchors df genes x y = []) :=
  ⟨fun _g hg hidx => labelAnchors_countP_one hnd hg hidx,
   fun _g hidx => labelAnchors_countP_absent hidx,
   fun h => labelAnchors_nil_of_absent h⟩

/-- A two-gene table for the annotation witness. -/
def dfAnn : DataFrame :=
  { columns := ["MI_with_condition", "avg_log2FC"],
    rows := [{ gene := "A", cells := [("MI_with_condition", some 1), ("avg_log2FC", some 2)] },
             { gene := "B", cells := [("MI_with_condition", some 3), ("avg_log2FC", some 4)] }] }

/-- Witness instantiating `label_anchors_spec`: request list
`["A", "Z"]` against the table `{A, B}`. -/
theorem label_anchors_spec_witness :
    (∀ g ∈ (["A", "Z"] : List String), g ∈ dfAnn.index →
        (labelAnchors dfAnn ["A", "Z"] "MI_with_condition" "avg_log2FC").countP
          (fun a => a.text == g) = 1)
    ∧ (∀ g, g ∉ dfAnn.index →
        (labelAnchors dfAnn ["A", "Z"] "MI_with_condition" "avg_log2FC").countP
          (fun a => a.text == g) = 0)
    ∧ ((∀ g ∈ (["A", "Z"] : List String), g ∉ dfAnn.index) →
        labelAnchors dfAnn ["A", "Z"] "MI_with_condition" "avg_log2FC" = []) :=
  label_anchors_spec dfAnn ["A", "Z"] "MI_with_condition" "avg_log2FC" (by decide)

/-! ## C4: regulation-direction filtering (spec-modelled) -/

/-- C4: with `regulation = Both` the Filter Engine is exactly the
source-derived threshold filter; with `UpOnly` its output is a
permutation of the threshold-passing rows with `log2FC > 0`, sorted
descending by `log2FC`; with `DownOnly` it is a permutation of the
threshold-passing rows with `log2FC < 0`, sorted ascending. -/
theorem regulation_filter_spec (df : DataFrame) (mi_min pval_max : ℚ) :
    (filterEngine df mi_min pval_max .Both = applyFilters df mi_min pval_max)
    ∧ (∀ out, filterEngine df mi_min pval_max .UpOnly = .ok out →
        List.Perm out.rows
            ((df.rows.filter (rowPasses mi_min pval_max)).filter
              (fun r => cellGT (r.get "avg_log2FC") 0))
          ∧ List.Sorted fcDesc out.rows)
    ∧ (∀ out, filterEngine df mi_min pval_max .DownOnly = .ok out →
        List.Perm out.rows
            ((df.rows.filter (rowPasses mi_min pval_max)).filter
              (fun r => cellLTv (r.get "avg_log2FC") 0))
          ∧ List.Sorted fcAsc out.rows) := by
  refine ⟨?_, ?_, ?_⟩
  · unfold filterEngine
    cases h : applyFilters df mi_min pval_max <;> simp [Bind.bind, Except.bind]
  · intro out hout
    unfold filterEngine at hout
    cases h : applyFilters df mi_min pval_max with
    | error e => rw [h] at hout; simp [Bind.bind, Except.bind] at hout
    | ok base =>
      rw [h] at hout
      simp only [Bind.bind, Except.bind, Except.ok.injEq] at hout
      obtain ⟨-, -, rfl⟩ := applyFilters_ok.mp h
      subst hout
      exact ⟨List.perm_insertionSort fcDesc _, List.sorted_insertionSort fcDesc _⟩
  · intro out hout
    unfold filterEngine at hout
    cases h : applyFilters df mi_min pval_max with
    | error e => rw [h] at hout; simp [Bind.bind, Except.bind] at hout
    | ok base =>
      rw [h] at hout
      simp only [Bind.bind, Except.bind, Except.ok.injEq] at hout
      obtain ⟨-, -, rfl⟩ := applyFilters_ok.mp h
      subst hout
      exact ⟨List.perm_insertionSort fcAsc _, List.sorted_insertionSort fcAsc _⟩

/-- An up-regulated passing row with `log2FC = 1`. -/
def rU1 : RowE :=
  { gene := "U1", cells := [("MI_with_condition", some 1), ("p_val_adj", some 0), ("avg_log2FC", some 1)] }

/-- An up-regulated passing row with `log2FC = 3`. -/
def rU2 : RowE :=
  { gene := "U2", cells := [("MI_with_condition", some 2), ("p_val_adj", some 0), ("avg_log2FC", some 3)] }

/-- A down-regulated passing row with `log2FC = -2`. -/
def rD : RowE :=
  { gene := "D", cells := [("MI_with_condition", some 3), ("p_val_adj", some 0), ("avg_log2FC", some (-2))] }

/-- A three-gene table exercising the regulation filter. -/
def dfReg : DataFrame :=
  { columns := ["MI_with_condition", "p_val_adj", "avg_log2FC"], rows := [rU1, rU2, rD] }

/-- Witness instantiating `regulation_filter_spec`: on `dfReg` the
`UpOnly` output re-sorts `[rU1, rU2]` to `[rU2, rU1]`, descending. -/
theorem regulation_filter_spec_witness :
    List.Perm ({ columns := dfReg.columns, rows := [rU2, rU1] } : DataFrame).rows
        ((dfReg.rows.filter (rowPasses 0 1)).filter
          (fun r => cellGT (r.get "avg_log2FC") 0))
      ∧ List.Sorted fcDesc ({ columns := dfReg.columns, rows := [rU2, rU1] } : DataFrame).rows :=
  (regulation_filter_spec dfReg 0 1).2.1 { columns := dfReg.columns, rows := [rU2, rU1] } rfl

/-! ## C3: an empty filter result flows through every downstream step -/

/-- Every column one pass of `main` touches after validation: the six
required columns plus the filter/hover columns of the expected format. -/
def mainCols : List String :=
  required_columns ++ ["p_val_adj", "p_val", "pct.1", "pct.2"]

theorem labelAnchors_rows_nil {df : DataFrame} (h : df.rows = [])
    (genes : List String) (x y : String) : labelAnchors df genes x y = [] :=
  labelAnchors_nil_of_absent (fun g _ hg => by
    rw [DataFrame.index, h] at hg
    simp at hg)

theorem pxContinuous_ok {df : DataFrame} {x y c : String} {hover : List String} {t : String}
    (hcc : ∀ cc ∈ [x, y, c] ++ hover, df.hasCol cc = true) :
    pxContinuous df x y c hover t =
      .ok { xcol := x, ycol := y
            points := df.rows.map (fun r =>
              { x := r.get x, y := r.get y, color := .continuous (r.get c) })
            anchors := []
            title := t } := by
  unfold pxContinuous
  rw [checkCols_ok hcc]
  rfl

theorem create_mitocarta_scatter_ok {df : DataFrame} {ts : String} {genes : List String}
    (hcc : ∀ c ∈ "is_mitocarta" :: (["MI_with_condition", "avg_log2FC"] ++ Deg.hoverA),
      df.hasCol c = true) :
    Deg.create_mitocarta_scatter df ts genes =
      .ok { xcol := "MI_with_condition", ycol := "avg_log2FC"
            points := df.rows.map (fun r =>
              { x := r.get "MI_with_condition", y := r.get "avg_log2FC"
                color := .discrete (Deg.mapMito (r.get "is_mitocarta")) })
            anchors := labelAnchors df genes "MI_with_condition" "avg_log2FC"
            title := "Scatter plot of MI vs avg_log2FC (MitoCarta genes in red) " ++ ts } := by
  unfold Deg.create_mitocarta_scatter DataFrame.getCol
  rw [hcc "is_mitocarta" (by simp),
      checkCols_ok (fun c hc => hcc c (List.mem_cons_of_mem _ hc))]
  rfl

theorem summaryStats_ok {df : DataFrame}
    (hcc : ∀ c ∈ ["is_mitocarta", "MI_with_condition", "avg_log2FC", "p_val_adj"],
      df.hasCol c = true) :
    summaryStats df = .ok
      { mitocarta_count := seriesSum (df.rows.map (fun r => r.get "is_mitocarta"))
        mitocarta_pct := (npDiv (seriesSum (df.rows.map (fun r => r.get "is_mitocarta")))
          df.rows.length).map (fun v => v * 100)
        mean_mi := seriesMean (df.rows.map (fun r => r.get "MI_with_condition"))
        mean_fc := seriesMean (df.rows.map (fun r => r.get "avg_log2FC"))
        median_pval := seriesMedian (df.rows.map (fun r => r.get "p_val_adj")) } := by
  unfold summaryStats DataFrame.getCol
  rw [hcc "is_mitocarta" (by simp), hcc "MI_with_condition" (by simp),
      hcc "avg_log2FC" (by simp), hcc "p_val_adj" (by simp)]
  rfl


/-- C3: an empty Filter Engine result is valid: when the filtered table
has zero rows, one pass of `main` still renders — all five plot builders
return chart specifications with zero points, the annotation overlay
contributes zero anchors, and the summary statistics compute (the NumPy
zero-division producing NaN metrics, not an exception). -/
theorem empty_filter_downstream_ok (df : DataFrame) (mi_min pval_max : ℚ)
    (genes : List String) (fdf : DataFrame)
    (hcols : ∀ c ∈ mainCols, df.hasCol c = true)
    (hf : applyFilters df mi_min pval_max = .ok fdf)
    (hempty : fdf.rows = []) :
    ∃ r : RenderOutput, runMain df mi_min pval_max genes = .rendered r
      ∧ r.n_filtered = 0
      ∧ r.fig1.points = [] ∧ r.fig1.anchors = []
      ∧ r.fig2.points = [] ∧ r.fig3.points = [] ∧ r.fig4.points = []
      ∧ r.fig5.points = [] ∧ r.summary.mitocarta_pct = none := by
  have hmiss : missingColumns df = [] := by
    rw [missingColumns, List.filter_eq_nil_iff]
    intro c hc
    have hcm : c ∈ mainCols := by rw [mainCols]; exact List.mem_append_left _ hc
    simp [hcols c hcm]
  have hcolsF : ∀ c ∈ mainCols, fdf.hasCol c = true := by
    obtain ⟨-, -, hfd⟩ := applyFilters_ok.mp hf
    intro c hc
    rw [hfd]
    exact hcols c hc
  obtain ⟨fcols, frows⟩ := fdf
  have hempty' : frows = [] := hempty
  subst hempty'
  have hmito : ∀ c ∈ "is_mitocarta" :: (["MI_with_condition", "avg_log2FC"] ++ Deg.hoverA),
      DataFrame.hasCol { columns := fcols, rows := [] } c = true := by
    have hsub : ∀ c ∈ "is_mitocarta" :: (["MI_with_condition", "avg_log2FC"] ++ Deg.hoverA),
        c ∈ mainCols := by decide
    exact fun c hc => hcolsF c (hsub c hc)
  have hA : ∀ cc ∈ ["MI_with_condition", "avg_log2FC", "pct_ratio"] ++ Deg.hoverA,
      DataFrame.hasCol { columns := fcols, rows := [] } cc = true := by
    have hsub : ∀ c ∈ ["MI_with_condition", "avg_log2FC", "pct_ratio"] ++ Deg.hoverA,
        c ∈ mainCols := by decide
    exact fun c hc => hcolsF c (hsub c hc)
  have hB1 : ∀ cc ∈ ["avg_log2FC", "p_val_adj_log10", "MI_with_condition"] ++ Deg.hoverB,
      DataFrame.hasCol { columns := fcols, rows := [] } cc = true := by
    have hsub : ∀ c ∈ ["avg_log2FC", "p_val_adj_log10", "MI_with_condition"] ++ Deg.hoverB,
        c ∈ mainCols := by decide
    exact fun c hc => hcolsF c (hsub c hc)
  have hB2 : ∀ cc ∈ ["avg_log2FC", "p_val_adj_log10", "Il10"] ++ Deg.hoverB,
      DataFrame.hasCol { columns := fcols, rows := [] } cc = true := by
    have hsub : ∀ c ∈ ["avg_log2FC", "p_val_adj_log10", "Il10"] ++ Deg.hoverB,
        c ∈ mainCols := by decide
    exact fun c hc => hcolsF c (hsub c hc)
  have hB3 : ∀ cc ∈ ["avg_log2FC", "p_val_adj_log10", "pct_ratio"] ++ Deg.hoverB,
      DataFrame.hasCol { columns := fcols, rows := [] } cc = true := by
    have hsub : ∀ c ∈ ["avg_log2FC", "p_val_adj_log10", "pct_ratio"] ++ Deg.hoverB,
        c ∈ mainCols := by decide
    exact fun c hc => hcolsF c (hsub c hc)
  have hsum : ∀ c ∈ ["is_mitocarta", "MI_with_condition", "avg_log2FC", "p_val_adj"],
      DataFrame.hasCol { columns := fcols, rows := [] } c = true := by
    have hsub : ∀ c ∈ ["is_mitocarta", "MI_with_condition", "avg_log2FC", "p_val_adj"],
        c ∈ mainCols := by decide
    exact fun c hc => hcolsF c (hsub c hc)
  have hrun : runMain df mi_min pval_max genes = .rendered
      { n_filtered := 0
        fig1 := { xcol := "MI_with_condition", ycol := "avg_log2FC", points := [],
                  anchors := [],
                  title := "Scatter plot of MI vs avg_log2FC (MitoCarta genes in red) (n=0)" }
        fig2 := { xcol := "MI_with_condition", ycol := "avg_log2FC", points := [], anchors := [],
                  title := "Scatter plot of MI vs avg_log2FC (colored by pct_ratio) (n=0)" }
        fig3 := { xcol := "avg_log2FC", ycol := "p_val_adj_log10", points := [], anchors := [],
                  title := "Volcano plot colored by MI (n=0)" }
        fig4 := { xcol := "avg_log2FC", ycol := "p_val_adj_log10", points := [], anchors := [],
                  title := "Volcano plot colored by IL10 (n=0)" }
        fig5 := { xcol := "avg_log2FC", ycol := "p_val_adj_log10", points := [], anchors := [],
                  title := "Volcano plot colored by pct_ratio (n=0)" }
        summary := { mitocarta_count := 0, mitocarta_pct := none, mean_mi := none,
                     mean_fc := none, median_pval := none } } := by
    unfold runMain
    rw [hmiss]
    simp only [List.isEmpty_nil, if_true]
    rw [hf]
    simp only [Bind.bind, Except.bind,
      Deg.create_pct_ratio_scatter, Deg.create_volcano_mi_scatter,
      Deg.create_volcano_il10_scatter, Deg.create_volcano_pct_scatter]
    rw [create_mitocarta_scatter_ok hmito, pxContinuous_ok hA, pxContinuous_ok hB1,
      pxContinuous_ok hB2, pxContinuous_ok hB3, summaryStats_ok hsum,
      labelAnchors_rows_nil rfl genes "MI_with_condition" "avg_log2FC"]
    rfl
  exact ⟨_, hrun, rfl, rfl, rfl, rfl, rfl, rfl, rfl, rfl⟩


/-- A table carrying every column `main` touches, whose single row fails
the MI threshold 1, so the filtered table is empty. -/
def dfMC : DataFrame :=
  { columns := mainCols,
    rows := [{ gene := "G",
               cells := [("MI_with_condition", some 0), ("avg_log2FC", some 1),
                         ("is_mitocarta", some 1), ("p_val_adj_log10", some 1),
                         ("Il10", some 1), ("pct_ratio", some 1), ("p_val_adj", some 1),
                         ("p_val", some 1), ("pct.1", some 1), ("pct.2", some 1)] }] }

/-- Witness instantiating `empty_filter_downstream_ok`: the pass over
`dfMC` at `mi_min = 1` filters every row out and still renders. -/
theorem empty_filter_downstream_ok_witness :
    ∃ r : RenderOutput, runMain dfMC 1 1 ["G"] = .rendered r
      ∧ r.n_filtered = 0
      ∧ r.fig1.points = [] ∧ r.fig1.anchors = []
      ∧ r.fig2.points = [] ∧ r.fig3.points = [] ∧ r.fig4.points = []
      ∧ r.fig5.points = [] ∧ r.summary.mitocarta_pct = none :=
  empty_filter_downstream_ok dfMC 1 1 ["G"] { columns := mainCols, rows := [] }
    (by decide) rfl rfl
